import Mathlib

/-!
Shallow embedding of the triage core of `src/multi.py` (doctorBySpecialty):
entity extraction (`extract_patient_details`), urgency classification
(`assess_urgency`), specialty classification (`determine_specialty`),
the patient-record store (`init_database` / `save_patient_to_database` /
`get_all_patients`) and the admin-notification content builder
(`create_admin_notification_email` / `send_admin_notification` /
`send_email_message`).

Python strings are modelled as Lean `String` (ASCII model for the case
maps and character classes, which is all the fixed keyword lists use);
Python `None`-able string parameters are `Option String`.  External
effects (the wall clock, sqlite success or failure, SMTP success or
failure) are passed in as explicit parameters, so every function here is
executable and deterministic.
-/

/-- The ASCII apostrophe character (code point 39). -/
def aposChar : Char := Char.ofNat 39

/-- The one-character string holding an ASCII apostrophe. -/
def apos : String := String.mk [aposChar]

/-- Python `str.lower` (ASCII model), as applied to symptom text in multi.py. -/
def pyLower (s : String) : String := String.mk (s.data.map Char.toLower)

/-- Python `str.upper` (ASCII model). -/
def pyUpper (s : String) : String := String.mk (s.data.map Char.toUpper)

/-- Contiguous-sublist test on character lists: the needle occurs somewhere
in the haystack. -/
def subOf : List Char → List Char → Bool
  | needle, [] => needle.isEmpty
  | needle, c :: rest => needle.isPrefixOf (c :: rest) || subOf needle rest

/-- Python `needle in hay` on strings: contiguous-substring test. -/
def strContains (hay needle : String) : Bool := subOf needle.data hay.data

/-- The loops `for keyword in ks: if keyword in s: return ...` of multi.py:
true iff some keyword of the list is a substring of `s`. -/
def matchesAny (keywords : List String) (s : String) : Bool :=
  keywords.any (fun k => strContains s k)

/-- Python `str.isdigit` (ASCII model): non-empty and all decimal digits. -/
def isdigitStr (s : String) : Bool := !s.isEmpty && s.data.all (fun c => c.isDigit)

/-- Python `int(...)` applied to an all-digit string. -/
def strToNat (s : String) : Nat := s.data.foldl (fun n c => n * 10 + (c.toNat - 48)) 0

/-- Python `x or d` for an optional string `x`: `None` and the empty string
are falsy, so both give the default `d`. -/
def pyOr (v : Option String) (d : String) : String :=
  match v with
  | none => d
  | some s => if s = "" then d else s

/-- The `value or ""` coercion used by `save_patient_to_database`. -/
def pyOrEmpty (v : Option String) : String := pyOr v ""

/-- Helper for `pyTitle`: the boolean records whether the previous character
was alphabetic (i.e. we are inside a word). -/
def titleAux : Bool → List Char → List Char
  | _, [] => []
  | prevAlpha, c :: rest =>
    if c.isAlpha then
      (if prevAlpha then c.toLower else c.toUpper) :: titleAux true rest
    else
      c :: titleAux false rest

/-- Python `str.title` (ASCII model): the first letter of each maximal
alphabetic run is upper-cased and the rest lower-cased. -/
def pyTitle (s : String) : String := String.mk (titleAux false s.data)

/-- Python regex `\w` (ASCII model): alphanumeric or underscore. -/
def isWordChar (c : Char) : Bool := c.isAlphanum || c == '_'

/-- Python regex `\s` (ASCII model): the six ASCII whitespace characters. -/
def isSpaceChar (c : Char) : Bool :=
  c == ' ' || c == '\t' || c == '\n' || c == '\r' || c == '\x0b' || c == '\x0c'

/-- Word-ness of an optional character; string ends count as non-word. -/
def wordOpt : Option Char → Bool
  | none => false
  | some c => isWordChar c

/-- A `\b` word boundary holds between two (optional) characters exactly
when their word-ness differs. -/
def boundaryAt (a b : Option Char) : Bool := wordOpt a != wordOpt b

/-- Match a literal pattern fragment case-insensitively (re.IGNORECASE),
returning the rest of the input. -/
def dropLitCI : List Char → List Char → Option (List Char)
  | [], l => some l
  | _ :: _, [] => none
  | p :: ps, c :: cs => if p.toLower == c.toLower then dropLitCI ps cs else none

/-- Match `\s+` greedily (at least one whitespace character), returning the
rest of the input. -/
def dropSpaces1 : List Char → Option (List Char)
  | [] => none
  | c :: cs => if isSpaceChar c then some (cs.dropWhile isSpaceChar) else none

/-- Match a name-pattern trigger at the current position: each literal
segment is followed by `\s+` (the last `\s+` precedes the capture group).
Greedy matching is exact here because every segment starts with a
non-whitespace character and the capture class `\w` excludes whitespace. -/
def matchTrigAt : List (List Char) → List Char → Option (List Char)
  | [], l => some l
  | seg :: rest, l =>
    match dropLitCI seg l with
    | none => none
    | some r =>
      match dropSpaces1 r with
      | none => none
      | some r2 => matchTrigAt rest r2

/-- Match one of multi.py line 52's name patterns at the current position:
the trigger segments, then the greedy `(\w+)` capture (group(1)). -/
def matchNameAt (segs : List (List Char)) (l : List Char) : Option String :=
  match matchTrigAt segs l with
  | none => none
  | some r =>
    let w := r.takeWhile isWordChar
    if w.isEmpty then none else some (String.mk w)

/-- `re.search` for a name pattern: try every start position left to right
and return the first capture. -/
def searchNamePat (segs : List (List Char)) : List Char → Option String
  | [] => none
  | c :: rest =>
    match matchNameAt segs (c :: rest) with
    | some s => some s
    | none => searchNamePat segs rest

/-- multi.py line 52, `name_patterns`, as lists of literal segments
separated by `\s+` (the apostrophe of the first pattern is `aposChar`). -/
def name_patterns : List (List (List Char)) :=
  [[['I', aposChar, 'm']],
   [['I', ' ', 'a', 'm']],
   [['n', 'a', 'm', 'e'], ['i', 's']],
   [['t', 'h', 'i', 's'], ['i', 's']]]

/-- multi.py lines 53-57: try the name patterns in order, first match wins. -/
def searchName (cs : List Char) : Option String :=
  name_patterns.findSome? (fun segs => searchNamePat segs cs)

/-- The local-part class `[A-Za-z0-9._%+-]` of the email pattern. -/
def isLocalChar (c : Char) : Bool :=
  c.isAlphanum || c == '.' || c == '_' || c == '%' || c == '+' || c == '-'

/-- The domain class `[A-Za-z0-9.-]` of the email pattern. -/
def isDomChar (c : Char) : Bool := c.isAlphanum || c == '.' || c == '-'

/-- The top-level-domain class of the email pattern.  The source writes it
`[A-Z|a-z]`, so the literal pipe character is part of the class. -/
def isTldChar (c : Char) : Bool := c.isAlpha || c == '|'

/-- Backtracking for `[A-Z|a-z]{2,}\b`: given the maximal run `ws` of
class characters and the input `rest` after it, try lengths from the
first argument downwards and return the largest length that is at least 2,
within the run, and followed by a word boundary. -/
def tldPick (ws rest : List Char) : Nat → Option Nat
  | 0 => none
  | 1 => none
  | t + 2 =>
    match ws.get? (t + 1) with
    | none => tldPick ws rest (t + 1)
    | some lc =>
      let nextC := if t + 2 == ws.length then rest.head? else ws.get? (t + 2)
      if boundaryAt (some lc) nextC then some (t + 2) else tldPick ws rest (t + 1)

/-- Backtracking for `[A-Za-z0-9.-]+\.[A-Z|a-z]{2,}\b` after the `@`:
`r2` is the input after the `@`; the argument is the candidate index of the
literal dot (equivalently the greedy domain length), tried from largest to
smallest as the regex engine would.  The index equal to the run length
always fails (the following character is not in the domain class, so it
cannot be a dot), which is why the search starts at run length minus one.
Returns the number of characters consumed after the `@` on success. -/
def domPick (r2 : List Char) : Nat → Option Nat
  | 0 => none
  | j + 1 =>
    match
      (if r2.get? (j + 1) = some '.' then
        let r3 := r2.drop (j + 2)
        let ws := r3.takeWhile isTldChar
        match tldPick ws (r3.drop ws.length) ws.length with
        | some t => some ((j + 1) + 1 + t)
        | none => none
      else none) with
    | some n => some n
    | none => domPick r2 j

/-- Match the email pattern of multi.py line 60,
`\b[A-Za-z0-9._%+-]+@[A-Za-z0-9.-]+\.[A-Z|a-z]{2,}\b`, at the current
position (`prev` is the character before it), returning the match length.
The greedy local part is exact (its class excludes `@`); the domain part
backtracks via `domPick`. -/
def matchEmailAt (prev : Option Char) (l : List Char) : Option Nat :=
  match l with
  | [] => none
  | c :: _ =>
    if !isLocalChar c then none
    else if !boundaryAt prev (some c) then none
    else
      let loc := l.takeWhile isLocalChar
      match l.drop loc.length with
      | '@' :: r2 =>
        let m := (r2.takeWhile isDomChar).length
        match domPick r2 (m - 1) with
        | some n => some (loc.length + 1 + n)
        | none => none
      | _ => none

/-- `re.search` for a whole-match pattern: try every start position left to
right, tracking the previous character for word-boundary tests, and return
the first matched substring. -/
def searchWith (m : Option Char → List Char → Option Nat) :
    Option Char → List Char → Option String
  | _, [] => none
  | prev, c :: rest =>
    match m prev (c :: rest) with
    | some n => some (String.mk ((c :: rest).take n))
    | none => searchWith m (some c) rest

/-- Consume exactly `n` regex `\d` digits. -/
def dropDigits : Nat → List Char → Option (List Char)
  | 0, l => some l
  | _ + 1, [] => none
  | n + 1, c :: rest => if c.isDigit then dropDigits n rest else none

/-- The separator class `[-.\s]` of the phone patterns. -/
def isSepChar (c : Char) : Bool := c == '-' || c == '.' || isSpaceChar c

/-- Consume an optional `[-.\s]?` separator.  Greedy matching is exact:
the class is disjoint from `\d`, which always follows it. -/
def dropSepOpt : List Char → List Char
  | [] => []
  | c :: rest => if isSepChar c then rest else c :: rest

/-- Match multi.py line 65's first phone pattern
`\b\d{3}[-.\s]?\d{3}[-.\s]?\d{4}\b` at the current position, returning the
match length.  The opening `\b` precedes a digit, so it requires the
previous character to be non-word. -/
def matchPhoneA (prev : Option Char) (l : List Char) : Option Nat :=
  if wordOpt prev then none
  else
    match dropDigits 3 l with
    | none => none
    | some r1 =>
      match dropDigits 3 (dropSepOpt r1) with
      | none => none
      | some r2 =>
        match dropDigits 4 (dropSepOpt r2) with
        | none => none
        | some r3 => if wordOpt r3.head? then none else some (l.length - r3.length)

/-- Match multi.py line 65's second phone pattern
`\b\(\d{3}\)\s*\d{3}[-.\s]?\d{4}\b` at the current position.  The opening
`\b` precedes the non-word `(`, so it requires the previous character to
BE a word character — a quirk inherited from the source pattern. -/
def matchPhoneB (prev : Option Char) (l : List Char) : Option Nat :=
  match l with
  | '(' :: r0 =>
    if !wordOpt prev then none
    else
      match dropDigits 3 r0 with
      | some (')' :: r1) =>
        match dropDigits 3 (r1.dropWhile isSpaceChar) with
        | none => none
        | some r2 =>
          match dropDigits 4 (dropSepOpt r2) with
          | none => none
          | some r3 => if wordOpt r3.head? then none else some (l.length - r3.length)
      | _ => none
  | _ => none

/-- multi.py lines 59-62: email search over the whole transcript. -/
def searchEmail (cs : List Char) : Option String := searchWith matchEmailAt none cs

/-- multi.py lines 64-70: try the two phone patterns in order; the first
pattern that matches anywhere in the transcript wins. -/
def searchPhone (cs : List Char) : Option String :=
  match searchWith matchPhoneA none cs with
  | some p => some p
  | none => searchWith matchPhoneB none cs

/-- The dictionary returned by `extract_patient_details` (8 string keys). -/
structure ExtractedDetails where
  name : String
  age : String
  gender : String
  phone : String
  email : String
  insurance : String
  symptoms : String
  medical_history : String
deriving DecidableEq

/-- multi.py lines 45-72, `extract_patient_details(conversation_history)`.
The `.strip()` calls of the source are identities here: a `\w+` capture and
the phone/email matches contain no leading or trailing whitespace. -/
def extract_patient_details (conversation_history : String) : ExtractedDetails :=
  if conversation_history = "" then
    ⟨"Unknown", "", "", "", "", "", "", ""⟩
  else
    let cs := conversation_history.data
    let name := (searchName cs).getD "Unknown"
    let email := (searchEmail cs).getD ""
    let phone := (searchPhone cs).getD ""
    ⟨name, "", "", phone, email, "", "", ""⟩

/-- multi.py line 79: the `critical_keywords` list of `assess_urgency`. -/
def critical_keywords : List String :=
  ["chest pain", "heart attack", "stroke", "bleeding", "unconscious",
   "difficulty breathing", "severe pain", "poisoning", "overdose", "suicide",
   "severe injury", "broken bone", "head injury"]

/-- multi.py line 80: the `high_keywords` list of `assess_urgency`. -/
def high_keywords : List String :=
  ["fever", "infection", "rash", "severe headache", "nausea", "vomiting",
   "dizzy", "swelling", "shortness of breath"]

/-- multi.py lines 74-90, `assess_urgency(symptoms, age=None, medical_history=None)`.
The `symptoms_lower` let-binding of the source is inlined; the unused
`age` and `medical_history` parameters are kept. -/
def assess_urgency (symptoms : String) (age : Option String)
    (medical_history : Option String) : String :=
  if symptoms = "" then "medium"
  else if matchesAny critical_keywords (pyLower symptoms) then "critical"
  else if matchesAny high_keywords (pyLower symptoms) then "high"
  else "medium"

/-- multi.py line 98: `emergency_keywords` of `determine_specialty`. -/
def emergency_keywords : List String :=
  ["chest pain", "heart attack", "stroke", "bleeding", "unconscious",
   "difficulty breathing", "severe pain", "poisoning", "overdose", "suicide",
   "severe injury"]

/-- multi.py line 103: `cardiology_keywords` of `determine_specialty`. -/
def cardiology_keywords : List String :=
  ["heart", "cardiac", "chest pain", "palpitations", "blood pressure",
   "cholesterol", "arrhythmia", "angina"]

/-- multi.py line 108: `dermatology_keywords` of `determine_specialty`. -/
def dermatology_keywords : List String :=
  ["skin", "rash", "acne", "mole", "eczema", "psoriasis", "dermatitis",
   "itching", "burning skin"]

/-- multi.py line 113: `orthopedics_keywords` of `determine_specialty`. -/
def orthopedics_keywords : List String :=
  ["bone", "joint", "back pain", "knee", "shoulder", "hip", "fracture",
   "sprain", "arthritis", "muscle pain"]

/-- multi.py line 118: `mental_health_keywords` of `determine_specialty`. -/
def mental_health_keywords : List String :=
  ["depression", "anxiety", "stress", "panic", "mental health", "counseling",
   "therapy", "mood", "psychiatric"]

/-- multi.py line 126: `gynecology_keywords` of `determine_specialty`. -/
def gynecology_keywords : List String :=
  ["pregnancy", "menstrual", "gynecological", "contraception", "pap smear",
   "mammogram", "breast"]

/-- multi.py line 123: the guard `age and age.isdigit() and int(age) < 18`
(`None` and the empty string are falsy). -/
def minor_age : Option String → Bool
  | none => false
  | some a => !a.isEmpty && isdigitStr a && decide (strToNat a < 18)

/-- multi.py lines 92-131, `determine_specialty(symptoms, age=None)`.
The `symptoms_lower` let-binding of the source is inlined. -/
def determine_specialty (symptoms : String) (age : Option String) : String :=
  if symptoms = "" then "general"
  else if matchesAny emergency_keywords (pyLower symptoms) then "emergency"
  else if matchesAny cardiology_keywords (pyLower symptoms) then "cardiology"
  else if matchesAny dermatology_keywords (pyLower symptoms) then "dermatology"
  else if matchesAny orthopedics_keywords (pyLower symptoms) then "orthopedics"
  else if matchesAny mental_health_keywords (pyLower symptoms) then "mental_health"
  else if minor_age age then "pediatrics"
  else if matchesAny gynecology_keywords (pyLower symptoms) then "gynecology"
  else "general"

/-- multi.py lines 32-37, the `URGENCY_LEVELS` dictionary;
`none` models a missing key. -/
def URGENCY_LEVELS : String → Option String := fun u =>
  if u = "critical" then some "🔴 CRITICAL - Immediate attention required"
  else if u = "high" then some "🟠 HIGH - Same day appointment needed"
  else if u = "medium" then some "🟡 MEDIUM - Within 3-5 days"
  else if u = "low" then some "🟢 LOW - Routine care, within 1-2 weeks"
  else none

/-- One entry of the `dept_info` dictionary of
`create_admin_notification_email` (multi.py lines 193-202). -/
structure DeptInfo where
  name : String
  icon : String
  color : String
deriving DecidableEq

/-- The `"general"` entry of `dept_info` (multi.py line 201), which is also
the `.get` default for unknown specialties (line 204). -/
def deptGeneral : DeptInfo := ⟨"General Practice", "👨‍⚕️", "#6366f1"⟩

/-- multi.py lines 193-202, the `dept_info` dictionary;
`none` models a missing key. -/
def dept_info : String → Option DeptInfo := fun s =>
  if s = "emergency" then some ⟨"Emergency Department", "🚨", "#dc2626"⟩
  else if s = "cardiology" then some ⟨"Cardiology Department", "❤️", "#ef4444"⟩
  else if s = "dermatology" then some ⟨"Dermatology Department", "🔬", "#06b6d4"⟩
  else if s = "orthopedics" then some ⟨"Orthopedic Department", "🦴", "#8b5cf6"⟩
  else if s = "mental_health" then some ⟨"Mental Health Department", "🧠", "#10b981"⟩
  else if s = "pediatrics" then some ⟨"Pediatrics Department", "👶", "#f59e0b"⟩
  else if s = "gynecology" then
    some ⟨"Women" ++ apos ++ "s Health Department", "👩‍⚕️", "#ec4899"⟩
  else if s = "general" then some deptGeneral
  else none

/-- multi.py line 205, the `urgency_colors` dictionary;
`none` models a missing key (the `.get` default is `"#6b7280"`). -/
def urgency_colors : String → Option String := fun u =>
  if u = "critical" then some "#dc2626"
  else if u = "high" then some "#ea580c"
  else if u = "medium" then some "#eab308"
  else if u = "low" then some "#16a34a"
  else none

/-- multi.py lines 210-217: the tier-specific next-step guidance line of
the email body (`if/elif/elif/else` on the urgency label). -/
def tier_guidance (urgency : String) : String :=
  if urgency = "critical" then "🚨 IMMEDIATE ACTION REQUIRED - Contact patient immediately"
  else if urgency = "high" then "⚡ HIGH PRIORITY - Schedule same-day appointment"
  else if urgency = "medium" then "📅 Schedule appointment within 3-5 days"
  else "📋 Routine scheduling (1-2 weeks)"

/-- The data-dependent content of the admin-notification email body built
by `create_admin_notification_email` (multi.py lines 190-221).  The static
HTML scaffolding of the f-string, the derived line
`Prepare {dept name lower} consultation materials`, and the
`Record created` wall-clock line are omitted: every decision the function
makes is captured in these fields. -/
structure EmailContent where
  urgency_display : String
  dept : DeptInfo
  urgency_color : String
  name : String
  age_display : String
  gender_display : String
  phone_display : String
  email_display : String
  insurance_display : String
  specialty_title : String
  urgency_upper : String
  symptoms_display : String
  medical_history_display : String
  guidance : String
deriving DecidableEq

/-- multi.py lines 190-221, `create_admin_notification_email(...)`. -/
def create_admin_notification_email (name : String)
    (age gender phone email insurance symptoms medical_history : Option String)
    (specialty urgency : String) : EmailContent :=
  { urgency_display := (URGENCY_LEVELS urgency).getD (pyUpper urgency)
    dept := (dept_info specialty).getD deptGeneral
    urgency_color := (urgency_colors urgency).getD "#6b7280"
    name := name
    age_display := pyOr age "Not provided"
    gender_display := pyOr gender "Not provided"
    phone_display := pyOr phone "Not provided"
    email_display := pyOr email "Not provided"
    insurance_display := pyOr insurance "Not provided"
    specialty_title := pyTitle specialty
    urgency_upper := pyUpper urgency
    symptoms_display := pyOr symptoms "Not provided"
    medical_history_display := pyOr medical_history "Not provided"
    guidance := tier_guidance urgency }

/-- The environment-derived email configuration of multi.py lines 21-23:
`EMAIL_ENABLED = EMAIL_USER and EMAIL_APP_PASSWORD`, plus the `EMAIL_USER`
address used as sender and admin recipient. -/
structure EmailConfig where
  emailEnabled : Bool
  emailUser : String

/-- multi.py lines 230-234: the urgency-marker prefix of the admin subject
(empty for every urgency other than critical and high). -/
def urgencyMarker (urgency : String) : String :=
  if urgency = "critical" then "🔴 CRITICAL ALERT: "
  else if urgency = "high" then "🟠 HIGH PRIORITY: "
  else ""

/-- multi.py line 236: the subject line built by `send_admin_notification`. -/
def admin_subject (name specialty urgency : String) : String :=
  urgencyMarker urgency ++ "New Patient: " ++ name ++ " → " ++ pyTitle specialty ++ " Dept"

/-- multi.py lines 158-188, `send_email_message(to_email, subject, body, cc)`:
returns the outcome string.  `smtpOk`/`smtpErr` model the external SMTP
transaction (the `try` body succeeding, or the caught exception's text);
the body and cc do not influence the outcome string. -/
def send_email_message (cfg : EmailConfig) (smtpOk : Bool) (smtpErr : String)
    (toAddr subject : String) (body : EmailContent) (cc : Option String) : String :=
  if !cfg.emailEnabled then
    "Email disabled. Would send to " ++ toAddr ++ ": " ++ subject
  else if smtpOk then
    "Email sent successfully to " ++ toAddr
  else
    "Failed to send email: " ++ smtpErr

/-- multi.py lines 223-240, `send_admin_notification(name, **patient_info)`:
returns the outcome string.  The `patient_info.get('specialty', 'general')`
and `.get('urgency', 'medium')` lookups are inlined as plain parameters:
`save_patient_to_database` always supplies both keys. -/
def send_admin_notification (cfg : EmailConfig) (smtpOk : Bool) (smtpErr : String)
    (name : String)
    (age gender phone email insurance symptoms medical_history : Option String)
    (specialty urgency : String) : String :=
  if !cfg.emailEnabled || cfg.emailUser = "" then "Email not configured"
  else
    send_email_message cfg smtpOk smtpErr cfg.emailUser
      (admin_subject name specialty urgency)
      (create_admin_notification_email name age gender phone email insurance
        symptoms medical_history specialty urgency)
      none

/-- One row of the `patients` table created by `init_database`
(multi.py line 137): `id` is the autoincrement primary key, `status` has
default `'pending'`, all other columns are text. -/
structure PatientRow where
  id : Nat
  timestamp : String
  name : String
  age : String
  gender : String
  phone : String
  email : String
  insurance : String
  symptoms : String
  medical_history : String
  specialty : String
  urgency : String
  status : String
deriving DecidableEq

/-- The sqlite store: the rows of the `patients` table plus the
autoincrement counter for the next `id`. -/
structure Database where
  rows : List PatientRow
  nextId : Nat
deriving DecidableEq

/-- Newest-first comparison used by `ORDER BY timestamp DESC`
(multi.py line 150): `a` precedes `b` when `b`'s timestamp is at most
`a`'s.  Timestamps are `%Y-%m-%d %H:%M:%S` strings, whose lexicographic
order coincides with chronological order. -/
def tsGE (a b : PatientRow) : Prop := b.timestamp ≤ a.timestamp

instance : DecidableRel tsGE :=
  fun a b => (inferInstance : Decidable (b.timestamp ≤ a.timestamp))

instance : IsTotal PatientRow tsGE :=
  ⟨fun a b => le_total b.timestamp a.timestamp⟩

instance : IsTrans PatientRow tsGE :=
  ⟨fun _ _ _ h1 h2 => le_trans h2 h1⟩

/-- multi.py lines 146-156, `get_all_patients()`: on a readable store,
the rows sorted newest first and no diagnostic; on a read failure
(`readable = false`, with `err` the caught exception's text), an empty
result plus the logged `DATABASE ERROR` diagnostic. -/
def get_all_patients (db : Database) (readable : Bool) (err : String) :
    List PatientRow × Option String :=
  if readable then (List.insertionSort tsGE db.rows, none)
  else ([], some ("DATABASE ERROR: " ++ err))

/-- The `patient_info` dictionary assembled by `save_patient_to_database`
(multi.py line 256) and handed to `send_admin_notification`: one
notification request. -/
structure NotifRequest where
  name : String
  age : Option String
  gender : Option String
  phone : Option String
  email : Option String
  insurance : Option String
  symptoms : Option String
  medical_history : Option String
  specialty : String
  urgency : String
deriving DecidableEq

/-- The observable outcome of `save_patient_to_database`: the store after
the call, the notification requests issued (in order), the outcome string
of the email dispatch as logged via `ADMIN EMAIL:` (absent when the insert
failed), and the function's return string. -/
structure SaveResult where
  db : Database
  notifications : List NotifRequest
  emailResult : Option String
  ret : String
deriving DecidableEq

/-- multi.py lines 242-266, `save_patient_to_database(...)`.  `ts` models
`datetime.now().strftime(...)`; `insertOk`/`insertErr` model the sqlite
transaction succeeding or raising; `smtpOk`/`smtpErr` model the SMTP
transaction inside the triggered notification.  On success the row is
committed with the autoincrement id, a fresh timestamp and the schema
default `status = 'pending'`, then exactly one admin notification is
requested; on an insert failure nothing is stored, no notification is
requested, and the error string is returned. -/
def save_patient_to_database (cfg : EmailConfig) (ts : String)
    (insertOk : Bool) (insertErr : String) (smtpOk : Bool) (smtpErr : String)
    (name : String)
    (age gender phone email insurance symptoms medical_history : Option String)
    (specialty urgency : String) (db : Database) : SaveResult :=
  if insertOk then
    let row : PatientRow :=
      ⟨db.nextId, ts, name, pyOrEmpty age, pyOrEmpty gender, pyOrEmpty phone,
       pyOrEmpty email, pyOrEmpty insurance, pyOrEmpty symptoms,
       pyOrEmpty medical_history, specialty, urgency, "pending"⟩
    let emailRes := send_admin_notification cfg smtpOk smtpErr name age gender
      phone email insurance symptoms medical_history specialty urgency
    { db := ⟨db.rows ++ [row], db.nextId + 1⟩
      notifications :=
        [⟨name, age, gender, phone, email, insurance, symptoms,
          medical_history, specialty, urgency⟩]
      emailResult := some emailRes
      ret := "✅ Patient record for " ++ name ++ " successfully stored and admin notified" }
  else
    { db := db
      notifications := []
      emailResult := none
      ret := "Failed to store patient record: " ++ insertErr }

/-! ### Helper lemmas -/

/-- No string is a substring of the empty string except the empty string. -/
theorem strContains_empty {k : String} (h : strContains "" k = true) : k = "" := by
  cases k with
  | mk data =>
    cases data with
    | nil => rfl
    | cons c cs => simp [strContains, subOf] at h

/-- `matchesAny` is the existence of a matching keyword. -/
theorem matchesAny_iff (ks : List String) (x : String) :
    matchesAny ks x = true ↔ ∃ k ∈ ks, strContains x k = true := by
  simp [matchesAny, List.any_eq_true]

/-- `matchesAny` is false exactly when no keyword matches. -/
theorem matchesAny_false_iff (ks : List String) (x : String) :
    matchesAny ks x = false ↔ ∀ k ∈ ks, strContains x k = false := by
  rw [← Bool.not_eq_true, matchesAny_iff]
  simp

/-- Case-folding the empty string gives the empty string. -/
theorem pyLower_empty : pyLower "" = "" := rfl

/-- A keyword list without the empty string cannot match the case-folded
empty symptom text. -/
theorem ne_empty_of_match {ks : List String} {s : String} (hk : "" ∉ ks)
    (h : ∃ k ∈ ks, strContains (pyLower s) k = true) : s ≠ "" := by
  rintro rfl
  obtain ⟨k, hkm, hc⟩ := h
  rw [pyLower_empty] at hc
  exact hk (strContains_empty hc ▸ hkm)

/-- `assess_urgency`'s empty-input early return coincides with the
keyword-scan default, so the function is the two-list scan for all inputs. -/
theorem assess_urgency_eq_scan (s : String) (a h : Option String) :
    assess_urgency s a h =
      if matchesAny critical_keywords (pyLower s) then "critical"
      else if matchesAny high_keywords (pyLower s) then "high"
      else "medium" := by
  by_cases hs : s = ""
  · subst hs
    have h1 : matchesAny critical_keywords (pyLower "") = false := by decide
    have h2 : matchesAny high_keywords (pyLower "") = false := by decide
    simp [assess_urgency, h1, h2]
  · simp [assess_urgency, hs]

/-! ### Claims -/

/-- C1: for every symptoms string, `assess_urgency` returns `critical` if
some keyword of the fixed critical list is a substring of the case-folded
input, otherwise `high` if some keyword of the fixed high list is a
substring, otherwise `medium` (also for empty symptoms); it never returns
`low`, and the result is independent of the input's letter casing. -/
theorem assess_urgency_spec :
    (∀ s a h, (∃ k ∈ critical_keywords, strContains (pyLower s) k = true) →
      assess_urgency s a h = "critical")
    ∧ (∀ s a h, (∀ k ∈ critical_keywords, strContains (pyLower s) k = false) →
      (∃ k ∈ high_keywords, strContains (pyLower s) k = true) →
      assess_urgency s a h = "high")
    ∧ (∀ s a h, (∀ k ∈ critical_keywords, strContains (pyLower s) k = false) →
      (∀ k ∈ high_keywords, strContains (pyLower s) k = false) →
      assess_urgency s a h = "medium")
    ∧ (∀ a h, assess_urgency "" a h = "medium")
    ∧ (∀ s a h, assess_urgency s a h ≠ "low")
    ∧ (∀ s t a h, pyLower s = pyLower t → assess_urgency s a h = assess_urgency t a h) := by
  refine ⟨?_, ?_, ?_, ?_, ?_, ?_⟩
  · intro s a h hex
    have hm := (matchesAny_iff critical_keywords (pyLower s)).mpr hex
    rw [assess_urgency_eq_scan]
    simp [hm]
  · intro s a h hno hex
    have h1 := (matchesAny_false_iff critical_keywords (pyLower s)).mpr hno
    have h2 := (matchesAny_iff high_keywords (pyLower s)).mpr hex
    rw [assess_urgency_eq_scan]
    simp [h1, h2]
  · intro s a h hno1 hno2
    have h1 := (matchesAny_false_iff critical_keywords (pyLower s)).mpr hno1
    have h2 := (matchesAny_false_iff high_keywords (pyLower s)).mpr hno2
    rw [assess_urgency_eq_scan]
    simp [h1, h2]
  · intro a h
    rfl
  · intro s a h
    rw [assess_urgency_eq_scan]
    split_ifs <;> decide
  · intro s t a h hlow
    rw [assess_urgency_eq_scan, assess_urgency_eq_scan, hlow]

/-- Witness for C1: a concrete mixed-case critical input. -/
theorem assess_urgency_spec_witness :
    assess_urgency "Sudden CHEST Pain after lunch" none none = "critical" :=
  assess_urgency_spec.1 "Sudden CHEST Pain after lunch" none none
    ⟨"chest pain", by decide, by decide⟩

/-- C2: `determine_specialty` tests its keyword lists in the fixed priority
order emergency, cardiology, dermatology, orthopedics, mental_health and
returns on the first list with a matching keyword, so a phrase present in
both the emergency and the cardiology list resolves to `emergency`; in
particular `determine_specialty "severe chest pain and bleeding"` with
empty age returns `emergency`. -/
theorem determine_specialty_priority :
    (∀ s a, (∃ k ∈ emergency_keywords, strContains (pyLower s) k = true) →
      determine_specialty s a = "emergency")
    ∧ (∀ s a, (∀ k ∈ emergency_keywords, strContains (pyLower s) k = false) →
      (∃ k ∈ cardiology_keywords, strContains (pyLower s) k = true) →
      determine_specialty s a = "cardiology")
    ∧ (∀ s a, (∀ k ∈ emergency_keywords, strContains (pyLower s) k = false) →
      (∀ k ∈ cardiology_keywords, strContains (pyLower s) k = false) →
      (∃ k ∈ dermatology_keywords, strContains (pyLower s) k = true) →
      determine_specialty s a = "dermatology")
    ∧ (∀ s a, (∀ k ∈ emergency_keywords, strContains (pyLower s) k = false) →
      (∀ k ∈ cardiology_keywords, strContains (pyLower s) k = false) →
      (∀ k ∈ dermatology_keywords, strContains (pyLower s) k = false) →
      (∃ k ∈ orthopedics_keywords, strContains (pyLower s) k = true) →
      determine_specialty s a = "orthopedics")
    ∧ (∀ s a, (∀ k ∈ emergency_keywords, strContains (pyLower s) k = false) →
      (∀ k ∈ cardiology_keywords, strContains (pyLower s) k = false) →
      (∀ k ∈ dermatology_keywords, strContains (pyLower s) k = false) →
      (∀ k ∈ orthopedics_keywords, strContains (pyLower s) k = false) →
      (∃ k ∈ mental_health_keywords, strContains (pyLower s) k = true) →
      determine_specialty s a = "mental_health")
    ∧ determine_specialty "severe chest pain and bleeding" (some "") = "emergency" := by
  refine ⟨?_, ?_, ?_, ?_, ?_, by decide⟩
  · intro s a hex
    have hs : s ≠ "" := ne_empty_of_match (by decide) hex
    have h1 := (matchesAny_iff emergency_keywords (pyLower s)).mpr hex
    simp [determine_specialty, hs, h1]
  · intro s a hno hex
    have hs : s ≠ "" := ne_empty_of_match (by decide) hex
    have h1 := (matchesAny_false_iff emergency_keywords (pyLower s)).mpr hno
    have h2 := (matchesAny_iff cardiology_keywords (pyLower s)).mpr hex
    simp [determine_specialty, hs, h1, h2]
  · intro s a hno1 hno2 hex
    have hs : s ≠ "" := ne_empty_of_match (by decide) hex
    have h1 := (matchesAny_false_iff emergency_keywords (pyLower s)).mpr hno1
    have h2 := (matchesAny_false_iff cardiology_keywords (pyLower s)).mpr hno2
    have h3 := (matchesAny_iff dermatology_keywords (pyLower s)).mpr hex
    simp [determine_specialty, hs, h1, h2, h3]
  · intro s a hno1 hno2 hno3 hex
    have hs : s ≠ "" := ne_empty_of_match (by decide) hex
    have h1 := (matchesAny_false_iff emergency_keywords (pyLower s)).mpr hno1
    have h2 := (matchesAny_false_iff cardiology_keywords (pyLower s)).mpr hno2
    have h3 := (matchesAny_false_iff dermatology_keywords (pyLower s)).mpr hno3
    have h4 := (matchesAny_iff orthopedics_keywords (pyLower s)).mpr hex
    simp [determine_specialty, hs, h1, h2, h3, h4]
  · intro s a hno1 hno2 hno3 hno4 hex
    have hs : s ≠ "" := ne_empty_of_match (by decide) hex
    have h1 := (matchesAny_false_iff emergency_keywords (pyLower s)).mpr hno1
    have h2 := (matchesAny_false_iff cardiology_keywords (pyLower s)).mpr hno2
    have h3 := (matchesAny_false_iff dermatology_keywords (pyLower s)).mpr hno3
    have h4 := (matchesAny_false_iff orthopedics_keywords (pyLower s)).mpr hno4
    have h5 := (matchesAny_iff mental_health_keywords (pyLower s)).mpr hex
    simp [determine_specialty, hs, h1, h2, h3, h4, h5]

/-- Witness for C2: a concrete emergency-keyword input. -/
theorem determine_specialty_priority_witness :
    determine_specialty "had a stroke" none = "emergency" :=
  determine_specialty_priority.1 "had a stroke" none ⟨"stroke", by decide, by decide⟩

/-- C3: `determine_specialty` returns `pediatrics` exactly when symptoms is
non-empty, none of the five priority keyword lists matches, and the age
string parses as a non-negative integer below 18 (`minor_age`); a
symptom-keyword match wins over the age rule (the dermatology example),
and empty symptoms gives `general` regardless of age. -/
theorem determine_specialty_pediatrics_iff :
    (∀ s a, determine_specialty s a = "pediatrics" ↔
      (s ≠ "" ∧ matchesAny emergency_keywords (pyLower s) = false
        ∧ matchesAny cardiology_keywords (pyLower s) = false
        ∧ matchesAny dermatology_keywords (pyLower s) = false
        ∧ matchesAny orthopedics_keywords (pyLower s) = false
        ∧ matchesAny mental_health_keywords (pyLower s) = false
        ∧ minor_age a = true))
    ∧ (∀ x, minor_age (some x) = true ↔ isdigitStr x = true ∧ strToNat x < 18)
    ∧ minor_age none = false
    ∧ determine_specialty "itchy rash on arm" (some "10") = "dermatology"
    ∧ (∀ a, determine_specialty "" a = "general") := by
  refine ⟨?_, ?_, rfl, by decide, fun a => rfl⟩
  · intro s a
    unfold determine_specialty
    split_ifs with h0 h1 h2 h3 h4 h5 h6 h7 <;> simp_all
  · intro x
    cases hx : x.isEmpty with
    | true =>
      have : x = "" := (String.isEmpty_iff x).mp hx
      subst this
      simp [minor_age, isdigitStr]
    | false => simp [minor_age, isdigitStr, hx]

/-- Witness for C3: a non-keyword complaint from a ten-year-old routes to
pediatrics by the iff. -/
theorem determine_specialty_pediatrics_iff_witness :
    determine_specialty "annual checkup" (some "10") = "pediatrics" :=
  (determine_specialty_pediatrics_iff.1 "annual checkup" (some "10")).mpr (by decide)

/-- C10: the urgency classifier's result depends only on the symptoms
argument; the `age` and `medical_history` parameters never influence the
returned tier. -/
theorem assess_urgency_ignores_extra_params :
    ∀ s a1 h1 a2 h2, assess_urgency s a1 h1 = assess_urgency s a2 h2 :=
  fun _ _ _ _ _ => rfl

/-- C6: the admin-notification subject carries an urgency-marker prefix iff
the urgency is `critical` or `high`; for `medium`, `low` and any other
urgency value the subject is the unprefixed base line. -/
theorem admin_subject_marker :
    ∀ name specialty urgency,
      (urgency = "critical" → admin_subject name specialty urgency =
        "🔴 CRITICAL ALERT: " ++ "New Patient: " ++ name ++ " → " ++ pyTitle specialty ++ " Dept")
      ∧ (urgency = "high" → admin_subject name specialty urgency =
        "🟠 HIGH PRIORITY: " ++ "New Patient: " ++ name ++ " → " ++ pyTitle specialty ++ " Dept")
      ∧ (urgency ≠ "critical" → urgency ≠ "high" → admin_subject name specialty urgency =
        "New Patient: " ++ name ++ " → " ++ pyTitle specialty ++ " Dept") := by
  intro name specialty urgency
  refine ⟨?_, ?_, ?_⟩
  · rintro rfl
    rfl
  · rintro rfl
    rfl
  · intro h1 h2
    simp [admin_subject, urgencyMarker, h1, h2]

/-- Witness for C6: the critical marker on a concrete subject. -/
theorem admin_subject_marker_witness :
    admin_subject "Maria" "emergency" "critical" =
      "🔴 CRITICAL ALERT: " ++ "New Patient: " ++ "Maria" ++ " → " ++ pyTitle "emergency" ++ " Dept" :=
  (admin_subject_marker "Maria" "emergency" "critical").1 rfl

/-- C5 counterexample: an unrecognized urgency label is NOT rendered like
`medium` — at a concrete input the banner display and the tier guidance
both differ from the `medium` ones (the guidance falls into the final
routine branch and the banner shows the upper-cased raw label). -/
theorem notification_unknown_urgency_differs :
    ¬ ((create_admin_notification_email "Pat" none none none none none none none
          "general" "urgent").guidance
        = (create_admin_notification_email "Pat" none none none none none none none
          "general" "medium").guidance
      ∧ (create_admin_notification_email "Pat" none none none none none none none
          "general" "urgent").urgency_display
        = (create_admin_notification_email "Pat" none none none none none none none
          "general" "medium").urgency_display) := by
  decide

/-- C5 amended: the notification content builder never fails on unknown
labels; an unrecognized specialty is treated exactly like `general` (same
department banner), and the subject logic treats an unrecognized urgency
like `medium` (no marker prefix) — but inside the body an unrecognized
urgency is rendered with the raw label upper-cased as its banner, the
neutral gray color, and the routine (low-tier) guidance text rather than
the `medium` ones. -/
theorem notification_unknown_label_behaviour :
    (∀ (name : String) (a g p e i x m : Option String) (specialty urgency : String),
      dept_info specialty = none →
      (create_admin_notification_email name a g p e i x m specialty urgency).dept
        = (create_admin_notification_email name a g p e i x m "general" urgency).dept)
    ∧ (∀ (name : String) (a g p e i x m : Option String) (specialty urgency : String),
      urgency ≠ "critical" → urgency ≠ "high" → urgency ≠ "medium" → urgency ≠ "low" →
      (create_admin_notification_email name a g p e i x m specialty urgency).guidance
          = tier_guidance "low"
        ∧ (create_admin_notification_email name a g p e i x m specialty urgency).urgency_display
          = pyUpper urgency
        ∧ (create_admin_notification_email name a g p e i x m specialty urgency).urgency_color
          = "#6b7280")
    ∧ (∀ (name specialty urgency : String), urgency ≠ "critical" → urgency ≠ "high" →
      urgencyMarker urgency = urgencyMarker "medium") := by
  refine ⟨?_, ?_, ?_⟩
  · intro name a g p e i x m specialty urgency hnone
    simp [create_admin_notification_email, hnone,
      show dept_info "general" = some deptGeneral from rfl]
  · intro name a g p e i x m specialty urgency h1 h2 h3 h4
    refine ⟨?_, ?_, ?_⟩
    · simp [create_admin_notification_email, tier_guidance, h1, h2, h3]
    · simp [create_admin_notification_email, URGENCY_LEVELS, h1, h2, h3, h4]
    · simp [create_admin_notification_email, urgency_colors, h1, h2, h3, h4]
  · intro name specialty urgency h1 h2
    simp [urgencyMarker, h1, h2]

/-- Witness for C5's amended statement: the concrete unknown labels
`"urology"` and `"urgent"`. -/
theorem notification_unknown_label_behaviour_witness :
    (create_admin_notification_email "Pat" none none none none none none none
        "urology" "urgent").dept
      = (create_admin_notification_email "Pat" none none none none none none none
        "general" "urgent").dept :=
  notification_unknown_label_behaviour.1 "Pat" none none none none none none none
    "urology" "urgent" (by decide)

/-- C7: for every intake whose insert succeeds, exactly one notification
dispatch is attempted; the dispatch outcome (success or failure) neither
rolls back nor alters the persisted record — the row stays stored with
status `pending` and the function's return string is unchanged — there is
no retry, and the dispatch outcome is surfaced only as the diagnostic
outcome string logged under `ADMIN EMAIL`. -/
theorem save_success_dispatch_contract :
    ∀ (cfg : EmailConfig) (ts ie : String) (so : Bool) (se : String) (so2 : Bool) (se2 : String)
      (name : String) (a g p e i x m : Option String) (sp u : String) (db : Database),
      (save_patient_to_database cfg ts true ie so se name a g p e i x m sp u db).notifications
        = [⟨name, a, g, p, e, i, x, m, sp, u⟩]
      ∧ (save_patient_to_database cfg ts true ie so se name a g p e i x m sp u db).db.rows
        = db.rows ++ [⟨db.nextId, ts, name, pyOrEmpty a, pyOrEmpty g, pyOrEmpty p,
            pyOrEmpty e, pyOrEmpty i, pyOrEmpty x, pyOrEmpty m, sp, u, "pending"⟩]
      ∧ (save_patient_to_database cfg ts true ie so se name a g p e i x m sp u db).db
        = (save_patient_to_database cfg ts true ie so2 se2 name a g p e i x m sp u db).db
      ∧ (save_patient_to_database cfg ts true ie so se name a g p e i x m sp u db).ret
        = "✅ Patient record for " ++ name ++ " successfully stored and admin notified"
      ∧ (save_patient_to_database cfg ts true ie so se name a g p e i x m sp u db).emailResult
        = some (send_admin_notification cfg so se name a g p e i x m sp u) := by
  intro cfg ts ie so se so2 se2 name a g p e i x m sp u db
  exact ⟨rfl, rfl, rfl, rfl, rfl⟩

/-- C8: `get_all_patients` returns the persisted rows newest first by
creation timestamp (a permutation of the store sorted by descending
timestamp); an unreadable store degrades to the empty sequence plus the
`DATABASE ERROR` diagnostic, and an empty store yields the empty sequence. -/
theorem get_all_patients_spec :
    (∀ (db : Database) (err : String),
      get_all_patients db false err = ([], some ("DATABASE ERROR: " ++ err)))
    ∧ (∀ (n : Nat) (r : Bool) (err : String), (get_all_patients ⟨[], n⟩ r err).1 = [])
    ∧ (∀ (db : Database) (err : String),
      List.Perm (get_all_patients db true err).1 db.rows
        ∧ List.Sorted tsGE (get_all_patients db true err).1
        ∧ (get_all_patients db true err).2 = none) := by
  refine ⟨fun db err => rfl, ?_, ?_⟩
  · intro n r err
    cases r with
    | false => rfl
    | true => rfl
  · intro db err
    exact ⟨List.perm_insertionSort tsGE db.rows, List.sorted_insertionSort tsGE db.rows, rfl⟩

/-- C4: after a successful insert, `get_all_patients` returns a record
whose fields equal the inserted input with absent optionals coerced to the
empty string, with status `pending` and a newly assigned id distinct from
every pre-existing id. -/
theorem save_then_list_roundtrip :
    ∀ (cfg : EmailConfig) (ts ie : String) (so : Bool) (se : String)
      (name : String) (a g p e i x m : Option String) (sp u : String)
      (db : Database) (err : String),
      (∀ r ∈ db.rows, r.id < db.nextId) →
      ∃ row ∈ (get_all_patients
          (save_patient_to_database cfg ts true ie so se name a g p e i x m sp u db).db
          true err).1,
        row.id = db.nextId ∧ row.timestamp = ts ∧ row.name = name
        ∧ row.age = pyOrEmpty a ∧ row.gender = pyOrEmpty g ∧ row.phone = pyOrEmpty p
        ∧ row.email = pyOrEmpty e ∧ row.insurance = pyOrEmpty i
        ∧ row.symptoms = pyOrEmpty x ∧ row.medical_history = pyOrEmpty m
        ∧ row.specialty = sp ∧ row.urgency = u ∧ row.status = "pending"
        ∧ ∀ old ∈ db.rows, old.id ≠ row.id := by
  intro cfg ts ie so se name a g p e i x m sp u db err hwf
  refine ⟨⟨db.nextId, ts, name, pyOrEmpty a, pyOrEmpty g, pyOrEmpty p, pyOrEmpty e,
      pyOrEmpty i, pyOrEmpty x, pyOrEmpty m, sp, u, "pending"⟩, ?_,
    rfl, rfl, rfl, rfl, rfl, rfl, rfl, rfl, rfl, rfl, rfl, rfl, rfl,
    fun old hold => Nat.ne_of_lt (hwf old hold)⟩
  show _ ∈ (get_all_patients _ true err).1
  simp [get_all_patients, save_patient_to_database, List.mem_insertionSort]

/-- Witness for C4: a concrete roundtrip through an empty store. -/
theorem save_then_list_roundtrip_witness :
    ∃ row ∈ (get_all_patients
        (save_patient_to_database ⟨false, ""⟩ "2026-01-01 09:00:00" true "" false ""
          "Maria" (some "34") none none none none (some "chest pain") none
          "emergency" "critical" ⟨[], 1⟩).db true "").1,
      row.id = 1 ∧ row.timestamp = "2026-01-01 09:00:00" ∧ row.name = "Maria"
      ∧ row.age = "34" ∧ row.gender = "" ∧ row.phone = ""
      ∧ row.email = "" ∧ row.insurance = ""
      ∧ row.symptoms = "chest pain" ∧ row.medical_history = ""
      ∧ row.specialty = "emergency" ∧ row.urgency = "critical" ∧ row.status = "pending"
      ∧ ∀ old ∈ ([] : List PatientRow), old.id ≠ row.id :=
  save_then_list_roundtrip ⟨false, ""⟩ "2026-01-01 09:00:00" "" false ""
    "Maria" (some "34") none none none none (some "chest pain") none
    "emergency" "critical" ⟨[], 1⟩ "" (by simp)

/-- C9: entity extraction is deterministic — two runs on the same
transcript yield identical output — and on a transcript matching none of
the name, email and phone patterns (the empty transcript included) it
returns name `Unknown` and the empty string for every other field, with
no failure. -/
theorem extract_patient_details_deterministic_defaults :
    (∀ t, extract_patient_details t = extract_patient_details t)
    ∧ (∀ t, searchName t.data = none → searchEmail t.data = none →
      searchPhone t.data = none →
      extract_patient_details t = ⟨"Unknown", "", "", "", "", "", "", ""⟩)
    ∧ extract_patient_details "" = ⟨"Unknown", "", "", "", "", "", "", ""⟩ := by
  refine ⟨fun t => rfl, ?_, rfl⟩
  intro t h1 h2 h3
  by_cases ht : t = ""
  · subst ht
    rfl
  · simp [extract_patient_details, ht, h1, h2, h3]

/-- Witness for C9: a pattern-free transcript extracts all defaults. -/
theorem extract_patient_details_deterministic_defaults_witness :
    extract_patient_details "hello doctor" = ⟨"Unknown", "", "", "", "", "", "", ""⟩ :=
  extract_patient_details_deterministic_defaults.2.1 "hello doctor"
    (by decide) (by decide) (by decide)
